import Mathlib

/-!
Verification of the GQUAL reactive-transport engine of HSPsquared
(`src/hsp2/hsp2/GQUAL.py`).

The development shallowly embeds the numerical kernels of the per-step
simulation — the dissolved-phase decay engine `ddecay`, the sediment decay
operator `adecay`, the sorption equilibrium solver `adsdes`, the
sediment-associated transport operator `advqal`, the daughter-coupling
accumulation of `_gqual_`, the depth-gated decay section of one simulation
step, and the photolysis light-attenuation table `light_factor` — as Lean
functions over exact arithmetic (`ℝ` where the source uses `exp`/`**`,
`ℚ` where the source is purely rational), and proves or refutes the
specified properties of those kernels.

Array-valued quantities of the source (`ddqal[1..7]`, `rsed[1..6]`,
`sqal[1..6]`, `adqal[1..7]`, `errors[...]`) are embedded as functions from
`ℕ`, keeping the source's 1-based indices; index 0 and indices past the
array length are unused (the embeddings return the source's fill value 0
there).
-/

namespace GQ

/-! ## Dissolved-phase decay engine `ddecay` (GQUAL.py lines 1535-1623)

The 23 scalar/array parameters of `ddecay` are bundled in a structure whose
fields keep the source's parameter names and order. -/

/-- Arguments of `ddecay`, in the source's parameter order. -/
structure DdecayArgs where
  qalfg : ℕ → ℕ
  tw20 : ℝ
  ka : ℝ
  kb : ℝ
  kn : ℝ
  thhyd : ℝ
  phval : ℝ
  kox : ℝ
  thox : ℝ
  roc : ℝ
  fact2 : ℕ → ℝ
  fact1 : ℝ
  photpm : ℕ → ℝ
  korea : ℝ
  cfgas : ℝ
  biocon : ℝ
  thbio : ℝ
  bio : ℝ
  fstdec : ℝ
  thfst : ℝ
  volsp : ℝ
  dqal : ℝ
  hr : ℤ
  delt60 : ℝ

noncomputable section

/-- Hydrolysis rate before temperature correction:
`khyd = ka*10.0**(-phval) + kb*10.0**(phval - 14.0) + kn`. -/
def khyd (a : DdecayArgs) : ℝ :=
  a.ka * (10 : ℝ) ^ (-a.phval) + a.kb * (10 : ℝ) ^ (a.phval - 14) + a.kn

/-- Process rate `k[1]` (hydrolysis), zero when `qalfg[1] ≠ 1`. -/
def k1 (a : DdecayArgs) : ℝ :=
  if a.qalfg 1 = 1 then khyd a * a.thhyd ^ a.tw20 else 0

/-- Process rate `k[2]` (free-radical oxidation): `kox*roc*thox**tw20`. -/
def k2 (a : DdecayArgs) : ℝ :=
  if a.qalfg 2 = 1 then a.kox * a.roc * a.thox ^ a.tw20 else 0

/-- Photolysis summation over the 18 wavelength intervals:
`fact3 = Σ_{l=1..18} fact2[l]*photpm[l]`. -/
def fact3 (a : DdecayArgs) : ℝ :=
  ∑ l in Finset.range 18, a.fact2 (l + 1) * a.photpm (l + 1)

/-- Photolysis rate `k[3]` before the diurnal adjustment:
`fact1*photpm[19]*fact3*photpm[20]**tw20`, zero when `qalfg[3] ≠ 1`. -/
def k3base (a : DdecayArgs) : ℝ :=
  if a.qalfg 3 = 1 then a.fact1 * a.photpm 19 * fact3 a * a.photpm 20 ^ a.tw20 else 0

/-- Process rate `k[3]` after the diurnal adjustment: when the simulation
interval is shorter than a day the rate is doubled during daylight hours
(`17 > hr >= 5`) and zeroed otherwise. -/
def k3 (a : DdecayArgs) : ℝ :=
  if a.delt60 < 24 then (if 5 ≤ a.hr ∧ a.hr < 17 then 2 * k3base a else 0)
  else k3base a

/-- Process rate `k[4]` (volatilization): `korea*cfgas`. -/
def k4 (a : DdecayArgs) : ℝ :=
  if a.qalfg 4 = 1 then a.korea * a.cfgas else 0

/-- Process rate `k[5]` (biodegradation): `biocon*bio*thbio**tw20`. -/
def k5 (a : DdecayArgs) : ℝ :=
  if a.qalfg 5 = 1 then a.biocon * a.bio * a.thbio ^ a.tw20 else 0

/-- Process rate `k[6]` (general first-order decay): `fstdec*thfst**tw20`. -/
def k6 (a : DdecayArgs) : ℝ :=
  if a.qalfg 6 = 1 then a.fstdec * a.thfst ^ a.tw20 else 0

/-- Combined decay rate `k7 = k[1]+k[2]+k[3]+k[4]+k[5]+k[6]`. -/
def k7 (a : DdecayArgs) : ℝ :=
  k1 a + k2 a + k3 a + k4 a + k5 a + k6 a

/-- Selector for the per-process rates `k[1..6]`. -/
def kproc (a : DdecayArgs) : ℕ → ℝ := fun i =>
  if i = 1 then k1 a else if i = 2 then k2 a else if i = 3 then k3 a
  else if i = 4 then k4 a else if i = 5 then k5 a else if i = 6 then k6 a else 0

/-- Total decayed mass `ddqal[7] = dqal*(1.0 - exp(-k7))*volsp`. -/
def ddqal7 (a : DdecayArgs) : ℝ :=
  a.dqal * (1 - Real.exp (-k7 a)) * a.volsp

/-- The decay engine `ddecay`: returns the array `ddqal[0..7]` as a function.
Below the noise floor (`dqal ≤ 1e-25`) every entry is zero; otherwise entry 7
is the total mass loss and entries 1..6 prorate it linearly by each process's
share `k[i]/k7` of the combined rate when `k7 > 0`, and are zero when not. -/
def ddecay (a : DdecayArgs) : ℕ → ℝ := fun i =>
  if a.dqal > 1e-25 then
    if i = 7 then ddqal7 a
    else if 1 ≤ i ∧ i ≤ 6 then (if k7 a > 0 then kproc a i / k7 a * ddqal7 a else 0)
    else 0
  else 0

/-! ## Sediment decay operator `adecay` (GQUAL.py lines 1369-1406) -/

/-- Result of `adecay`, in the source's return order. -/
structure AdecayOut where
  sqal_sand : ℝ
  sqal_silt : ℝ
  sqal_clay : ℝ
  sqdec_sand : ℝ
  sqdec_silt : ℝ
  sqdec_clay : ℝ

/-- The sediment decay operator `adecay`: when the decay rate `addcpm1` is
positive, each sorbed concentration above the `1e-30` noise floor is reduced
by the fraction `fact = 1 - exp(-addcpm1*addcpm2**tw20)` and the decayed mass
is `dconc*rsed`; otherwise concentrations pass through and decayed masses
are zero. -/
def adecay (addcpm1 addcpm2 tw20 rsed_sand rsed_silt rsed_clay
    sqal_sand sqal_silt sqal_clay : ℝ) : AdecayOut :=
  if addcpm1 > 0 then
    let fact := 1 - Real.exp (-(addcpm1 * addcpm2 ^ tw20))
    { sqal_sand := if sqal_sand > 1e-30 then sqal_sand - sqal_sand * fact else sqal_sand
      sqal_silt := if sqal_silt > 1e-30 then sqal_silt - sqal_silt * fact else sqal_silt
      sqal_clay := if sqal_clay > 1e-30 then sqal_clay - sqal_clay * fact else sqal_clay
      sqdec_sand := if sqal_sand > 1e-30 then sqal_sand * fact * rsed_sand else 0
      sqdec_silt := if sqal_silt > 1e-30 then sqal_silt * fact * rsed_silt else 0
      sqdec_clay := if sqal_clay > 1e-30 then sqal_clay * fact * rsed_clay else 0 }
  else
    { sqal_sand := sqal_sand, sqal_silt := sqal_silt, sqal_clay := sqal_clay
      sqdec_sand := 0, sqdec_silt := 0, sqdec_clay := 0 }

/-! ## Sorption equilibrium solver `adsdes` (GQUAL.py lines 1409-1465) -/

/-- Arguments of `adsdes`, in the source's parameter order.  The six
adsorption site classes are indexed 1..6 (1-3 suspended sand/silt/clay,
4-6 bed sand/silt/clay). -/
structure AdsdesArgs where
  vol : ℝ
  rsed : ℕ → ℝ
  adpm1 : ℕ → ℝ
  adpm2 : ℕ → ℝ
  adpm3 : ℕ → ℝ
  tw20 : ℝ
  dqal : ℝ
  sqal : ℕ → ℝ

/-- Result of `adsdes`, in the source's return order. -/
structure AdsdesOut where
  dqal : ℝ
  sqal : ℕ → ℝ
  adqal : ℕ → ℝ

/-- Temperature-corrected transfer rate `akj = adpm2[j]*adpm3[j]**tw20`. -/
def akj (s : AdsdesArgs) (j : ℕ) : ℝ := s.adpm2 j * s.adpm3 j ^ s.tw20

/-- The source's scratch array `ainv[j] = akj*adpm1[j]*(1/(1+akj))`, filled
only for present sediment classes (`rsed[j] > 0`), zero otherwise. -/
def ainv (s : AdsdesArgs) (j : ℕ) : ℝ :=
  if s.rsed j > 0 then akj s j * s.adpm1 j * (1 / (1 + akj s j)) else 0

/-- The source's scratch array `cainv[j] = sqal[j]*(1/(1+akj))`, filled only
for present sediment classes (`rsed[j] > 0`), zero otherwise. -/
def cainv (s : AdsdesArgs) (j : ℕ) : ℝ :=
  if s.rsed j > 0 then s.sqal j * (1 / (1 + akj s j)) else 0

/-- Numerator of the new-dissolved-concentration equation:
`num = vol*dqal + Σ_{j present} (sqal[j]-cainv[j])*rsed[j]`. -/
def adsdesNum (s : AdsdesArgs) : ℝ :=
  s.vol * s.dqal +
    ∑ j in Finset.range 6,
      (if s.rsed (j + 1) > 0 then (s.sqal (j + 1) - cainv s (j + 1)) * s.rsed (j + 1) else 0)

/-- Denominator of the new-dissolved-concentration equation:
`denom = vol + Σ_{j present} rsed[j]*ainv[j]`. -/
def adsdesDenom (s : AdsdesArgs) : ℝ :=
  s.vol +
    ∑ j in Finset.range 6,
      (if s.rsed (j + 1) > 0 then s.rsed (j + 1) * ainv s (j + 1) else 0)

/-- New dissolved concentration `dqal = num/denom`. -/
def dqalNew (s : AdsdesArgs) : ℝ := adsdesNum s / adsdesDenom s

/-- The sorption equilibrium solver `adsdes`: with water present
(`vol > 0`) it solves for the new dissolved concentration, back-substitutes
the new sorbed concentration `cainv[j] + dqal*ainv[j]` of each present class,
and records each class's transfer flux `adqal[j]` and their total `adqal[7]`;
absent classes keep their (undefined) `sqal[j]` and get zero flux.  With no
water all fluxes are zero and the state passes through. -/
def adsdes (s : AdsdesArgs) : AdsdesOut :=
  if s.vol > 0 then
    { dqal := dqalNew s
      sqal := fun j =>
        if 1 ≤ j ∧ j ≤ 6 ∧ s.rsed j > 0 then cainv s j + dqalNew s * ainv s j else s.sqal j
      adqal := fun j =>
        if 1 ≤ j ∧ j ≤ 6 then
          (if s.rsed j > 0 then (cainv s j + dqalNew s * ainv s j - s.sqal j) * s.rsed j else 0)
        else if j = 7 then
          ∑ i in Finset.range 6,
            (if s.rsed (i + 1) > 0 then
              (cainv s (i + 1) + dqalNew s * ainv s (i + 1) - s.sqal (i + 1)) * s.rsed (i + 1)
            else 0)
        else 0 }
  else
    { dqal := s.dqal, sqal := s.sqal, adqal := fun _ => 0 }

/-! ## Daughter coupling (GQUAL.py lines 1066-1078)

In `_gqual_`, after this constituent's own decay, the contribution `pdqal`
from the decay of lower-indexed parent constituents is accumulated:

  for k in range(1, 7):
      if gqpm2[k] == 1:
          itobe = index - 1
          for j in range(1, itobe):
              pdqal = pdqal + ddqal[k, j] * c[j, k]

`ddqal[k, j]` is the mass decayed by process `k` of constituent `j` in this
step and `c` is the daughter-coupling table.  Note that the Python iteration
`range(1, itobe)` runs `j = 1, ..., index - 2`. -/

/-- Accumulation of `pdqal` exactly as the source computes it: processes
`k = 1..6` flagged by `gqpm2[k] == 1`, parents `j ∈ range(1, index - 1)`,
i.e. `1 ≤ j < index - 1`. -/
def pdqal_calc (gqpm2 : ℕ → ℕ) (ddqal : ℕ → ℕ → ℝ) (c : ℕ → ℕ → ℝ) (index : ℕ) : ℝ :=
  ∑ k in Finset.range 6,
    (if gqpm2 (k + 1) = 1 then
      ∑ j in Finset.Ico 1 (index - 1), ddqal (k + 1) j * c j (k + 1)
    else 0)

/-- Modelled from the spec: the daughter-coupling contract of §4.6, which the
inline daughter loop of `_gqual_` is supposed to implement — "for constituent
`i`, sum over all lower-indexed constituents `j` of `ddqal[process][j] ×
C[j][i]` for every decay process that marks `i` as a recognized daughter".
All lower-indexed constituents means `1 ≤ j < i`. -/
def pdqal_spec (gqpm2 : ℕ → ℕ) (ddqal : ℕ → ℕ → ℝ) (C : ℕ → ℕ → ℝ) (i : ℕ) : ℝ :=
  ∑ k in Finset.range 6,
    (if gqpm2 (k + 1) = 1 then ∑ j in Finset.Ico 1 i, ddqal (k + 1) j * C j i else 0)

/-! ## The depth-gated decay section of one simulation step
(GQUAL.py lines 1035-1084 and 1209-1260)

For one constituent and one step, after the advection of dissolved material
and of the sediment-associated fractions, `_gqual_` runs (a) dissolved decay
plus the daughter-coupling update, gated by `avdepe > 0.17`; (b) decay on
suspended sediment, gated by `avdepe > 0.17`; (c) decay on bed sediment,
not gated; (d) adsorption/desorption exchange, gated by `avdepe > 0.17`.
Steps (b)-(d) run only when the constituent is sediment-associated
(`qalfg[7] == 1`).  The embedding takes as inputs the state at line 1035:
the dissolved concentration `dqal` (field `da.dqal`), the reach volume
(field `da.volsp`), and the sorbed concentrations `sqal[1..6]` as already
updated by the `advqal` calls. -/

/-- Inputs of the depth-gated decay section of one step. -/
structure StepArgs where
  avdepe : ℝ
  da : DdecayArgs
  gqpm2 : ℕ → ℕ
  ddqalPrev : ℕ → ℕ → ℝ
  c : ℕ → ℕ → ℝ
  index : ℕ
  qalfg7 : ℕ
  addcpm1 : ℝ
  addcpm2 : ℝ
  addcpm3 : ℝ
  addcpm4 : ℝ
  tw20 : ℝ
  rsed : ℕ → ℝ
  adpm1 : ℕ → ℝ
  adpm2 : ℕ → ℝ
  adpm3 : ℕ → ℝ
  sqal : ℕ → ℝ

/-- Outputs of the depth-gated decay section of one step. -/
structure StepOut where
  ddqal : ℕ → ℝ
  pdqal : ℝ
  dqal : ℝ
  sqal : ℕ → ℝ
  sqdec : ℕ → ℝ
  adqal : ℕ → ℝ

/-- The depth-gated decay section of one simulation step, mirroring
GQUAL.py lines 1035-1084 (dissolved decay, daughter coupling, concentration
update) and 1209-1260 (suspended-sediment decay, bed-sediment decay,
adsorption/desorption), with the suspended/bed decay split of `sqdec[1..6]`
and their total `sqdec[7]`. -/
def stepDecaySection (p : StepArgs) : StepOut :=
  let dd : ℕ → ℝ := if p.avdepe > 0.17 then ddecay p.da else fun _ => 0
  let pd : ℝ := if p.avdepe > 0.17 then pdqal_calc p.gqpm2 p.ddqalPrev p.c p.index else 0
  let dqal1 : ℝ :=
    if p.avdepe > 0.17 then
      (if p.da.volsp > 0 then p.da.dqal + (pd - dd 7) / p.da.volsp else p.da.dqal)
    else p.da.dqal
  if p.qalfg7 = 1 then
    let susp : AdecayOut :=
      if p.avdepe > 0.17 then
        adecay p.addcpm1 p.addcpm2 p.tw20 (p.rsed 1) (p.rsed 2) (p.rsed 3)
          (p.sqal 1) (p.sqal 2) (p.sqal 3)
      else
        { sqal_sand := p.sqal 1, sqal_silt := p.sqal 2, sqal_clay := p.sqal 3
          sqdec_sand := 0, sqdec_silt := 0, sqdec_clay := 0 }
    let bed : AdecayOut :=
      adecay p.addcpm3 p.addcpm4 p.tw20 (p.rsed 4) (p.rsed 5) (p.rsed 6)
        (p.sqal 4) (p.sqal 5) (p.sqal 6)
    let sqdec7 : ℝ :=
      susp.sqdec_sand + susp.sqdec_silt + susp.sqdec_clay +
        bed.sqdec_sand + bed.sqdec_silt + bed.sqdec_clay
    let sqalMid : ℕ → ℝ := fun j =>
      if j = 1 then susp.sqal_sand else if j = 2 then susp.sqal_silt
      else if j = 3 then susp.sqal_clay else if j = 4 then bed.sqal_sand
      else if j = 5 then bed.sqal_silt else if j = 6 then bed.sqal_clay else p.sqal j
    let ads : AdsdesOut :=
      if p.avdepe > 0.17 then
        adsdes { vol := p.da.volsp, rsed := p.rsed, adpm1 := p.adpm1, adpm2 := p.adpm2
                 adpm3 := p.adpm3, tw20 := p.tw20, dqal := dqal1, sqal := sqalMid }
      else
        { dqal := dqal1, sqal := sqalMid, adqal := fun _ => 0 }
    { ddqal := dd, pdqal := pd, dqal := ads.dqal, sqal := ads.sqal
      sqdec := fun i =>
        if i = 1 then susp.sqdec_sand else if i = 2 then susp.sqdec_silt
        else if i = 3 then susp.sqdec_clay else if i = 4 then bed.sqdec_sand
        else if i = 5 then bed.sqdec_silt else if i = 6 then bed.sqdec_clay
        else if i = 7 then sqdec7 else 0
      adqal := ads.adqal }
  else
    { ddqal := dd, pdqal := pd, dqal := dqal1, sqal := p.sqal
      sqdec := fun _ => 0, adqal := fun _ => 0 }

end

/-! ## Sediment-associated transport operator `advqal`
(GQUAL.py lines 1468-1532)

`advqal` is purely rational arithmetic, so it is embedded over `ℚ` and is
executable.  The error-counter array is a function `ℕ → ℤ`; the operator
returns the updated counters (slot 4: suspended-state inconsistency, slot 5:
bed-state inconsistency).  The source condition `abs(rbqals > 0.0)` applies
`abs` to a boolean, so the bed check tests `rbqals > 0` (not `|rbqals| > 0`);
the embedding reproduces that. -/

/-- Result of `advqal`, in the source's return order. -/
structure AdvqalOut where
  errors : ℕ → ℤ
  sqal : ℚ
  bqal : ℚ
  dsqal : ℚ
  rosqal : ℚ
  osqal : ℕ → ℚ

/-- The sediment-associated transport operator `advqal` for one sediment
size fraction: scour branch when `depscr < 0` (bed concentration from
remaining bed mass, or the `-1.0e30` undefined sentinel with full release
`dsqal = -rbqals` when the bed was scoured clean), deposition/no-scour
branch otherwise (suspended concentration from inflow plus resident mass
over total suspended sediment, sentinel plus consistency checks on the
degenerate zero-denominator cases); per-exit outflow apportioned by each
exit's share of the advected sediment. -/
def advqal (isqal rsed bsed depscr rosed : ℚ) (osed : ℕ → ℚ) (nexits : ℕ)
    (rsqals rbqals : ℚ) (errors : ℕ → ℤ) : AdvqalOut :=
  if depscr < 0 then
    let bqal : ℚ := if bsed ≤ 0 then -1e30 else rbqals / (bsed - depscr)
    let dsqal : ℚ := if bsed ≤ 0 then -(1 : ℚ) * rbqals else rbqals / (bsed - depscr) * depscr
    let sqal : ℚ := if rsed + rosed > 0 then (isqal + rsqals - dsqal) / (rsed + rosed) else 0
    let rosqal := rosed * sqal
    { errors := errors, sqal := sqal, bqal := bqal, dsqal := dsqal, rosqal := rosqal
      osqal := if 1 < nexits then
          (if rosed ≤ 0 then fun _ => 0
           else fun i => if i < nexits then rosqal * osed i / rosed else 0)
        else fun _ => 0 }
  else
    let denom := rsed + depscr + rosed
    let sqal : ℚ :=
      if denom ≤ 0 then -1e30
      else if rsed ≤ 0 then -1e30 else (isqal + rsqals) / denom
    let rosqal : ℚ := if denom ≤ 0 then 0 else rosed * ((isqal + rsqals) / denom)
    let dsqal : ℚ := if denom ≤ 0 then 0 else depscr * ((isqal + rsqals) / denom)
    let e4 : ℤ := if denom ≤ 0 then (if |isqal| > 0 ∨ |rsqals| > 0 then 1 else 0) else 0
    let bqal : ℚ := if bsed ≤ 0 then -1e30 else (dsqal + rbqals) / bsed
    let e5 : ℤ := if bsed ≤ 0 then (if |dsqal| > 0 ∨ rbqals > 0 then 1 else 0) else 0
    { errors := fun i =>
        if i = 4 then errors 4 + e4 else if i = 5 then errors 5 + e5 else errors i
      sqal := sqal, bqal := bqal, dsqal := dsqal, rosqal := rosqal
      osqal := if 1 < nexits then
          (if rosed ≤ 0 then fun _ => 0
           else fun i => if i < nexits then rosqal * osed i / rosed else 0)
        else fun _ => 0 }

/-! ## Photolysis light-attenuation table (GQUAL.py lines 586-591, 1626-2073)

`light_factor(l, lset, light)` returns the hard-coded light factor for
wavelength interval `l` (1..18), season set `lset` (1..4) and latitude band
`light` (1..5).  The initial `vals` of the source is a list of 18 zeros,
returned unchanged when `light` matches none of the five bands.  The band
index is derived from the latitude as `(abs(int(lat)) + 5) // 10`, raised to
1 when it is 0; there is no clamp at the high end. -/

/-- The source's initial `vals`: 18 zeros, returned when `light` is outside
1..5. -/
def lightValsDefault : List ℚ :=
  [0, 0, 0, 0, 0, 0, 0, 0, 0, 0, 0, 0, 0, 0, 0, 0, 0, 0]

/-- Light factors for latitude band 1, `lset == 1`. -/
def lightVals1_1 : List ℚ :=
  [0.0102, 0.0178, 0.0285, 0.0327, 0.0418, 0.0370, 0.339, 0.433, 0.840, 1.16, 1.47, 1.50, 2.74, 2.90, 2.90, 2.80, 2.70, 3.00]

/-- Light factors for latitude band 1, `lset == 2`. -/
def lightVals1_2 : List ℚ :=
  [0.000466, 0.00316, 0.00937, 0.0190, 0.0291, 0.0265, 0.329, 0.438, 0.837, 1.17, 1.47, 1.50, 2.69, 2.79, 2.80, 2.80, 2.70, 2.50]

/-- Light factors for latitude band 1, `lset == 3`. -/
def lightVals1_3 : List ℚ :=
  [0.000419, 0.00287, 0.00851, 0.00173, 0.0266, 0.0291, 0.299, 0.385, 0.764, 1.07, 1.36, 1.37, 2.46, 2.52, 2.60, 2.60, 2.50, 2.30]

/-- Light factors for latitude band 1, the final `else` branch over `lset` (reached for `lset = 4` and any other value). -/
def lightVals1_4 : List ℚ :=
  [0.000320, 0.00239, 0.00726, 0.0151, 0.0238, 0.0236, 0.0292, 0.344, 0.696, 0.980, 1.23, 1.27, 2.26, 2.35, 2.43, 2.30, 2.40, 2.10]

/-- Light factors for latitude band 2, `lset == 1`. -/
def lightVals2_1 : List ℚ :=
  [0.000351, 0.00251, 0.00809, 0.0181, 0.0282, 0.0283, 0.329, 0.424, 0.841, 1.17, 1.47, 1.50, 2.68, 2.80, 2.80, 2.80, 2.76, 2.50]

/-- Light factors for latitude band 2, `lset == 2`. -/
def lightVals2_2 : List ℚ :=
  [0.000444, 0.00315, 0.00961, 0.0197, 0.0302, 0.0303, 0.347, 0.447, 0.883, 1.23, 1.55, 1.58, 2.81, 2.96, 2.90, 3.00, 2.80, 2.70]

/-- Light factors for latitude band 2, `lset == 3`. -/
def lightVals2_3 : List ℚ :=
  [0.000274, 0.00220, 0.00689, 0.0148, 0.0233, 0.0233, 0.268, 0.345, 0.696, 0.980, 1.24, 1.26, 2.30, 2.35, 2.42, 2.40, 2.20, 2.26]

/-- Light factors for latitude band 2, the final `else` branch over `lset` (reached for `lset = 4` and any other value). -/
def lightVals2_4 : List ℚ :=
  [0.000147, 0.00147, 0.00534, 0.0115, 0.0188, 0.0188, 0.221, 0.286, 0.597, 0.840, 1.06, 1.09, 1.95, 2.03, 2.07, 2.10, 2.36, 1.60]

/-- Light factors for latitude band 3, `lset == 1`. -/
def lightVals3_1 : List ℚ :=
  [0.000230, 0.00213, 0.00726, 0.0165, 0.0264, 0.0269, 0.320, 0.414, 0.827, 1.15, 1.45, 1.48, 2.64, 2.74, 2.76, 2.80, 2.70, 2.50]

/-- Light factors for latitude band 3, `lset == 2`. -/
def lightVals3_2 : List ℚ :=
  [0.000365, 0.00232, 0.00902, 0.0192, 0.0302, 0.0304, 0.374, 0.437, 0.907, 1.34, 1.59, 1.62, 2.89, 3.03, 3.00, 3.00, 2.90, 2.80]

/-- Light factors for latitude band 3, `lset == 3`. -/
def lightVals3_3 : List ℚ :=
  [0.000135, 0.00144, 0.00484, 0.0116, 0.0189, 0.0230, 0.223, 0.284, 0.623, 0.850, 1.09, 1.11, 2.00, 2.07, 2.09, 2.10, 2.10, 1.90]

/-- Light factors for latitude band 3, the final `else` branch over `lset` (reached for `lset = 4` and any other value). -/
def lightVals3_4 : List ℚ :=
  [0.0000410, 0.000650, 0.00276, 0.00755, 0.0131, 0.0134, 0.170, 0.219, 0.475, 0.669, 0.850, 0.880, 1.57, 1.63, 1.67, 1.73, 1.63, 1.60]

/-- Light factors for latitude band 4, `lset == 1`. -/
def lightVals4_1 : List ℚ :=
  [0.000109, 0.00137, 0.00296, 0.00799, 0.0138, 0.0142, 0.178, 0.230, 0.526, 0.676, 0.890, 0.923, 1.69, 1.73, 1.78, 1.50, 1.70, 1.60]

/-- Light factors for latitude band 4, `lset == 2`. -/
def lightVals4_2 : List ℚ :=
  [0.000249, 0.00232, 0.00793, 0.0181, 0.0291, 0.0297, 0.354, 0.458, 0.971, 1.28, 1.43, 1.63, 2.92, 3.05, 3.00, 3.10, 2.90, 2.90]

/-- Light factors for latitude band 4, `lset == 3`. -/
def lightVals4_3 : List ℚ :=
  [0.000109, 0.00137, 0.00535, 0.0138, 0.02319, 0.0239, 0.108, 0.384, 0.791, 1.11, 1.39, 1.42, 2.52, 2.62, 2.60, 4.70, 2.60, 2.50]

/-- Light factors for latitude band 4, the final `else` branch over `lset` (reached for `lset = 4` and any other value). -/
def lightVals4_4 : List ℚ :=
  [0.0000054, 0.000156, 0.00102, 0.00379, 0.00753, 0.00810, 0.0752, 0.147, 0.338, 0.480, 0.610, 0.620, 1.12, 1.16, 1.19, 1.39, 1.20, 1.16]

/-- Light factors for latitude band 5, `lset == 1`. -/
def lightVals5_1 : List ℚ :=
  [0.0000371, 0.000710, 0.00355, 0.00730, 0.00184, 0.0196, 0.266, 0.348, 0.724, 1.02, 1.29, 1.32, 2.34, 2.40, 2.44, 2.50, 2.50, 2.30]

/-- Light factors for latitude band 5, `lset == 2`. -/
def lightVals5_2 : List ℚ :=
  [0.0000079, 0.00175, 0.00653, 0.0163, 0.0267, 0.0277, 0.343, 0.444, 0.904, 1.26, 1.60, 1.63, 2.90, 3.04, 3.00, 3.10, 2.90, 2.90]

/-- Light factors for latitude band 5, `lset == 3`. -/
def lightVals5_3 : List ℚ :=
  [0.000152, 0.000225, 0.00129, 0.00439, 0.00864, 0.00920, 0.124, 0.166, 0.365, 0.517, 0.660, 0.680, 1.22, 1.25, 1.31, 1.34, 1.31, 1.24]

/-- Light factors for latitude band 5, the final `else` branch over `lset` (reached for `lset = 4` and any other value). -/
def lightVals5_4 : List ℚ :=
  [0.0000004, 0.0000157, 0.000178, 0.00120, 0.00293, 0.00368, 0.0629, 0.0821, 0.196, 0.275, 0.351, 0.355, 0.630, 0.640, 0.690, 0.710, 0.710, 0.690]

/-- The light-factor lookup `light_factor`, selecting the table by latitude
band and season set and returning entry `vals[l - 1]`. -/
def light_factor (l : ℕ) (lset : ℕ) (light : ℕ) : ℚ :=
  (if light = 1 then
    (if lset = 1 then lightVals1_1 else if lset = 2 then lightVals1_2
     else if lset = 3 then lightVals1_3 else lightVals1_4)
  else if light = 2 then
    (if lset = 1 then lightVals2_1 else if lset = 2 then lightVals2_2
     else if lset = 3 then lightVals2_3 else lightVals2_4)
  else if light = 3 then
    (if lset = 1 then lightVals3_1 else if lset = 2 then lightVals3_2
     else if lset = 3 then lightVals3_3 else lightVals3_4)
  else if light = 4 then
    (if lset = 1 then lightVals4_1 else if lset = 2 then lightVals4_2
     else if lset = 3 then lightVals4_3 else lightVals4_4)
  else if light = 5 then
    (if lset = 1 then lightVals5_1 else if lset = 2 then lightVals5_2
     else if lset = 3 then lightVals5_3 else lightVals5_4)
  else lightValsDefault).getD (l - 1) 0

/-- Selection of the light-data set from the latitude (GQUAL.py lines
588-590): `light = (abs(int(lat)) + 5) // 10`, and `light = 1` when that
quotient is 0 ("no table for equation, so use 10 deg table"). -/
def lightIndex (lat : ℤ) : ℕ :=
  if (lat.natAbs + 5) / 10 = 0 then 1 else (lat.natAbs + 5) / 10

/-! ## Nonnegativity of the decay rates -/

/-- Nonnegative rate inputs for `ddecay`: every rate constant, light factor
and concentration entering the six process rates is nonnegative and the four
temperature-correction bases are positive. -/
def NonnegInputs (a : DdecayArgs) : Prop :=
  0 ≤ a.ka ∧ 0 ≤ a.kb ∧ 0 ≤ a.kn ∧ 0 ≤ a.kox ∧ 0 ≤ a.roc ∧ 0 ≤ a.fact1 ∧
    (∀ l, 0 ≤ a.fact2 l) ∧ (∀ l, 0 ≤ a.photpm l) ∧ 0 ≤ a.korea ∧ 0 ≤ a.cfgas ∧
    0 ≤ a.biocon ∧ 0 ≤ a.bio ∧ 0 ≤ a.fstdec ∧
    0 < a.thhyd ∧ 0 < a.thox ∧ 0 < a.thbio ∧ 0 < a.thfst

theorem kproc_nonneg (a : DdecayArgs) (h : NonnegInputs a) (i : ℕ) : 0 ≤ kproc a i := by
  obtain ⟨hka, hkb, hkn, hkox, hroc, hf1, hf2, hph, hko, hcf, hbc, hbio, hfs,
    hth1, hth2, hth3, hth4⟩ := h
  have hkhyd : 0 ≤ khyd a := by
    have p1 : (0 : ℝ) ≤ (10 : ℝ) ^ (-a.phval) := Real.rpow_nonneg (by norm_num) _
    have p2 : (0 : ℝ) ≤ (10 : ℝ) ^ (a.phval - 14) := Real.rpow_nonneg (by norm_num) _
    unfold khyd
    have := mul_nonneg hka p1
    have := mul_nonneg hkb p2
    linarith
  have h1 : 0 ≤ k1 a := by
    unfold k1; split
    · exact mul_nonneg hkhyd (Real.rpow_nonneg hth1.le _)
    · exact le_refl 0
  have h2 : 0 ≤ k2 a := by
    unfold k2; split
    · exact mul_nonneg (mul_nonneg hkox hroc) (Real.rpow_nonneg hth2.le _)
    · exact le_refl 0
  have h3b : 0 ≤ k3base a := by
    unfold k3base; split
    · have hs : 0 ≤ fact3 a :=
        Finset.sum_nonneg fun l _ => mul_nonneg (hf2 _) (hph _)
      exact mul_nonneg (mul_nonneg (mul_nonneg hf1 (hph 19)) hs)
        (Real.rpow_nonneg (hph 20) _)
    · exact le_refl 0
  have h3 : 0 ≤ k3 a := by
    unfold k3; split
    · split
      · linarith
      · exact le_refl 0
    · exact h3b
  have h4 : 0 ≤ k4 a := by
    unfold k4; split
    · exact mul_nonneg hko hcf
    · exact le_refl 0
  have h5 : 0 ≤ k5 a := by
    unfold k5; split
    · exact mul_nonneg (mul_nonneg hbc hbio) (Real.rpow_nonneg hth3.le _)
    · exact le_refl 0
  have h6 : 0 ≤ k6 a := by
    unfold k6; split
    · exact mul_nonneg hfs (Real.rpow_nonneg hth4.le _)
    · exact le_refl 0
  unfold kproc
  split_ifs <;> first | assumption | exact le_refl 0

theorem k7_nonneg (a : DdecayArgs) (h : NonnegInputs a) : 0 ≤ k7 a := by
  have h1 := kproc_nonneg a h 1
  have h2 := kproc_nonneg a h 2
  have h3 := kproc_nonneg a h 3
  have h4 := kproc_nonneg a h 4
  have h5 := kproc_nonneg a h 5
  have h6 := kproc_nonneg a h 6
  simp only [kproc] at h1 h2 h3 h4 h5 h6
  norm_num at h1 h2 h3 h4 h5 h6
  unfold k7
  linarith

theorem sum_kproc (a : DdecayArgs) :
    ∑ i in Finset.range 6, kproc a (i + 1) = k7 a := by
  simp [Finset.sum_range_succ, kproc, k7]

/-! ## Claim C3: proration identity of `ddecay` -/

/-- Claim C3: for every call to `ddecay` with any enable flags and
nonnegative rate constants (and any dissolved concentration and volume),
the six per-process decayed masses sum exactly to the reported total:
`Σ_{i=1..6} ddqal[i] = ddqal[7]`. -/
theorem ddecay_proration (a : DdecayArgs) (h : NonnegInputs a) :
    ∑ i in Finset.range 6, ddecay a (i + 1) = ddecay a 7 := by
  by_cases hd : a.dqal > 1e-25
  · have hR : ddecay a 7 = ddqal7 a := by simp [ddecay, if_pos hd]
    by_cases hk : k7 a > 0
    · have hterm : ∀ i ∈ Finset.range 6,
          ddecay a (i + 1) = kproc a (i + 1) * (ddqal7 a / k7 a) := by
        intro i hi
        have hi6 : i < 6 := Finset.mem_range.mp hi
        have h7 : ¬ (i + 1 = 7) := by omega
        have h16 : 1 ≤ i + 1 ∧ i + 1 ≤ 6 := by omega
        simp only [ddecay, if_pos hd, if_neg h7, if_pos h16, if_pos hk]
        ring
      rw [Finset.sum_congr rfl hterm, ← Finset.sum_mul, sum_kproc,
        mul_div_cancel₀ _ (ne_of_gt hk), hR]
    · have hk0 : k7 a = 0 := le_antisymm (not_lt.mp hk) (k7_nonneg a h)
      have hdd0 : ddqal7 a = 0 := by
        unfold ddqal7; rw [hk0, neg_zero, Real.exp_zero]; ring
      have hterm : ∀ i ∈ Finset.range 6, ddecay a (i + 1) = 0 := by
        intro i hi
        have hi6 : i < 6 := Finset.mem_range.mp hi
        have h7 : ¬ (i + 1 = 7) := by omega
        have h16 : 1 ≤ i + 1 ∧ i + 1 ≤ 6 := by omega
        simp only [ddecay, if_pos hd, if_neg h7, if_pos h16, if_neg hk]
      rw [Finset.sum_congr rfl hterm, Finset.sum_const, smul_zero, hR, hdd0]
  · simp [ddecay, hd]

/-- Inputs used to instantiate the `ddecay` theorems: all flags off, all
rates zero, all bases one, unit volume and concentration. -/
def aW : DdecayArgs :=
  { qalfg := fun _ => 0, tw20 := 0, ka := 0, kb := 0, kn := 0, thhyd := 1
    phval := 7, kox := 0, thox := 1, roc := 0, fact2 := fun _ => 0, fact1 := 0
    photpm := fun _ => 0, korea := 0, cfgas := 0, biocon := 0, thbio := 1
    bio := 0, fstdec := 0, thfst := 1, volsp := 1, dqal := 1, hr := 0, delt60 := 24 }

theorem aW_nonneg : NonnegInputs aW := by
  refine ⟨le_rfl, le_rfl, le_rfl, le_rfl, le_rfl, le_rfl, fun l => le_rfl,
    fun l => le_rfl, le_rfl, le_rfl, le_rfl, le_rfl, le_rfl, ?_, ?_, ?_, ?_⟩ <;>
    norm_num [aW]

/-- Witness for C3: the proration identity evaluated at the concrete
nonnegative input `aW`. -/
theorem ddecay_proration_witness :
    ∑ i in Finset.range 6, ddecay aW (i + 1) = ddecay aW 7 :=
  ddecay_proration aW aW_nonneg

/-! ## Claim C10: `ddecay` never overdraws and is nonnegative -/

/-- Inputs refuting C10 as stated: a negative dissolved concentration with
all listed rate inputs nonnegative and `volsp = 1`. -/
def aNeg : DdecayArgs :=
  { qalfg := fun _ => 0, tw20 := 0, ka := 0, kb := 0, kn := 0, thhyd := 1
    phval := 7, kox := 0, thox := 1, roc := 0, fact2 := fun _ => 0, fact1 := 0
    photpm := fun _ => 0, korea := 0, cfgas := 0, biocon := 0, thbio := 1
    bio := 0, fstdec := 0, thfst := 1, volsp := 1, dqal := -1, hr := 0, delt60 := 24 }

/-- Counterexample to C10 as stated: at `aNeg` (every rate input listed by
the claim is nonnegative, bases are 1, `volsp = 1`, but `dqal = -1`) the
engine returns `ddqal[7] = 0`, yet `0 ≤ dqal*volsp = -1` fails, so
`ddqal[7] ≤ dqal*volsp` is violated. -/
theorem ddecay_no_overdraw_cex :
    ¬ ddecay aNeg 7 ≤ aNeg.dqal * aNeg.volsp := by
  have h1 : ddecay aNeg 7 = 0 := by
    have : ¬ aNeg.dqal > 1e-25 := by norm_num [aNeg]
    simp [ddecay, this]
  rw [h1]
  norm_num [aNeg]

/-- Claim C10 (amended: the dissolved concentration must also be
nonnegative): with nonnegative rate inputs, positive temperature bases,
`volsp ≥ 0` and `dqal ≥ 0`, every `ddqal[i]` is nonnegative, the total
satisfies `ddqal[7] ≤ dqal*volsp`, and below the `1e-25` noise floor all
outputs are exactly zero. -/
theorem ddecay_no_overdraw (a : DdecayArgs) (h : NonnegInputs a)
    (hvol : 0 ≤ a.volsp) (hdq : 0 ≤ a.dqal) :
    (∀ i, 0 ≤ ddecay a i) ∧ ddecay a 7 ≤ a.dqal * a.volsp ∧
      (a.dqal ≤ 1e-25 → ∀ i, ddecay a i = 0) := by
  have hk7 := k7_nonneg a h
  have hexp_pos : 0 < Real.exp (-k7 a) := Real.exp_pos _
  have hexp_le : Real.exp (-k7 a) ≤ 1 := Real.exp_le_one_iff.mpr (by linarith)
  have hdd7_nonneg : 0 ≤ ddqal7 a := by
    unfold ddqal7
    have : 0 ≤ 1 - Real.exp (-k7 a) := by linarith
    exact mul_nonneg (mul_nonneg hdq this) hvol
  have hdd7_le : ddqal7 a ≤ a.dqal * a.volsp := by
    unfold ddqal7
    nlinarith [mul_nonneg (mul_nonneg hdq hvol) hexp_pos.le]
  refine ⟨?_, ?_, ?_⟩
  · intro i
    unfold ddecay
    split_ifs with h1 h2 h3 h4
    · exact hdd7_nonneg
    · exact mul_nonneg (div_nonneg (kproc_nonneg a h i) hk7) hdd7_nonneg
    · exact le_refl 0
    · exact le_refl 0
    · exact le_refl 0
  · have hred : ddecay a 7 = if a.dqal > 1e-25 then ddqal7 a else 0 := by
      simp [ddecay]
    rw [hred]
    split_ifs with h1
    · exact hdd7_le
    · exact mul_nonneg hdq hvol
  · intro hle i
    have : ¬ a.dqal > 1e-25 := not_lt.mpr hle
    simp [ddecay, this]

/-- Witness for the amended C10 at the concrete input `aW`. -/
theorem ddecay_no_overdraw_witness :
    0 ≤ ddecay aW 7 ∧ ddecay aW 7 ≤ aW.dqal * aW.volsp :=
  ⟨(ddecay_no_overdraw aW aW_nonneg (by norm_num [aW]) (by norm_num [aW])).1 7,
    (ddecay_no_overdraw aW aW_nonneg (by norm_num [aW]) (by norm_num [aW])).2.1⟩

/-! ## Claims C4 and C8: the sorption equilibrium solver -/

theorem adsdes_dqal_pos (s : AdsdesArgs) (hv : s.vol > 0) :
    (adsdes s).dqal = dqalNew s := by
  simp [adsdes, if_pos hv]

theorem adsdes_sqal_pos (s : AdsdesArgs) (hv : s.vol > 0) (j : ℕ) :
    (adsdes s).sqal j =
      if 1 ≤ j ∧ j ≤ 6 ∧ s.rsed j > 0 then cainv s j + dqalNew s * ainv s j
      else s.sqal j := by
  simp [adsdes, if_pos hv]

theorem adsdes_adqal_pos (s : AdsdesArgs) (hv : s.vol > 0) (j : ℕ) :
    (adsdes s).adqal j =
      if 1 ≤ j ∧ j ≤ 6 then
        (if s.rsed j > 0 then (cainv s j + dqalNew s * ainv s j - s.sqal j) * s.rsed j else 0)
      else if j = 7 then
        ∑ i in Finset.range 6,
          (if s.rsed (i + 1) > 0 then
            (cainv s (i + 1) + dqalNew s * ainv s (i + 1) - s.sqal (i + 1)) * s.rsed (i + 1)
          else 0)
      else 0 := by
  simp [adsdes, if_pos hv]

/-- Inputs refuting C4 as stated: volume 1, only class 1 present with
`rsed[1] = 1`, partition capacity `adpm1 = -2` and rate `adpm2 = 1` with
base `adpm3 = 1` at `tw20 = 0`, so that the temperature-corrected rate is
`akj = 1`, `ainv[1] = -1` and the dissolved-equation denominator
`vol + rsed[1]*ainv[1]` vanishes. -/
def sCex : AdsdesArgs :=
  { vol := 1, rsed := fun j => if j = 1 then 1 else 0, adpm1 := fun _ => -2
    adpm2 := fun _ => 1, adpm3 := fun _ => 1, tw20 := 0, dqal := 1
    sqal := fun j => if j = 1 then 2 else 0 }

/-- Counterexample to C4 as stated: at `sCex` the volume is positive but the
solver's linear equation degenerates (denominator 0), and total mass is not
conserved: the left side evaluates to 1 and the right side to 3. -/
theorem adsdes_mass_conservation_cex :
    ¬ (sCex.vol * (adsdes sCex).dqal +
        (∑ j in Finset.range 6,
          if sCex.rsed (j + 1) > 0 then sCex.rsed (j + 1) * (adsdes sCex).sqal (j + 1) else 0)
      = sCex.vol * sCex.dqal +
        (∑ j in Finset.range 6,
          if sCex.rsed (j + 1) > 0 then sCex.rsed (j + 1) * sCex.sqal (j + 1) else 0)) := by
  norm_num [adsdes, dqalNew, adsdesNum, adsdesDenom, ainv, cainv, akj, sCex,
    Finset.sum_range_succ, Real.one_rpow]

/-- Claim C4 (amended: the dissolved-equation denominator
`vol + Σ_{j present} rsed[j]*ainv[j]` must be nonzero, as it is whenever the
partition parameters are nonnegative): for every call to `adsdes` with
`vol > 0` and nonzero denominator, total mass is exactly conserved —
`vol*dqal_new + Σ_{j: rsed[j]>0} rsed[j]*sqal_new[j] =
vol*dqal_old + Σ_{j: rsed[j]>0} rsed[j]*sqal_old[j]` — and the reported
total flux `adqal[7]` equals both `Σ_{j=1..6} adqal[j]` and
`vol*(dqal_old - dqal_new)`. -/
theorem adsdes_mass_conservation (s : AdsdesArgs) (hvol : 0 < s.vol)
    (hden : adsdesDenom s ≠ 0) :
    (s.vol * (adsdes s).dqal +
        (∑ j in Finset.range 6,
          if s.rsed (j + 1) > 0 then s.rsed (j + 1) * (adsdes s).sqal (j + 1) else 0)
      = s.vol * s.dqal +
        (∑ j in Finset.range 6,
          if s.rsed (j + 1) > 0 then s.rsed (j + 1) * s.sqal (j + 1) else 0))
    ∧ (adsdes s).adqal 7 = ∑ j in Finset.range 6, (adsdes s).adqal (j + 1)
    ∧ (adsdes s).adqal 7 = s.vol * (s.dqal - (adsdes s).dqal) := by
  have hds := adsdes_dqal_pos s hvol
  -- the three guarded sums that drive the algebra
  have hSnew : ∀ j ∈ Finset.range 6,
      (if s.rsed (j + 1) > 0 then s.rsed (j + 1) * (adsdes s).sqal (j + 1) else 0)
        = (if s.rsed (j + 1) > 0 then s.rsed (j + 1) * cainv s (j + 1) else 0)
          + dqalNew s * (if s.rsed (j + 1) > 0 then s.rsed (j + 1) * ainv s (j + 1) else 0) := by
    intro j hj
    have hj6 : j < 6 := Finset.mem_range.mp hj
    rw [adsdes_sqal_pos s hvol]
    by_cases hp : s.rsed (j + 1) > 0
    · rw [if_pos hp, if_pos hp, if_pos hp, if_pos ⟨by omega, by omega, hp⟩]
      ring
    · rw [if_neg hp, if_neg hp, if_neg hp]
      ring
  have hsum_new :
      (∑ j in Finset.range 6,
        if s.rsed (j + 1) > 0 then s.rsed (j + 1) * (adsdes s).sqal (j + 1) else 0)
      = (∑ j in Finset.range 6,
          if s.rsed (j + 1) > 0 then s.rsed (j + 1) * cainv s (j + 1) else 0)
        + dqalNew s *
          (∑ j in Finset.range 6,
            if s.rsed (j + 1) > 0 then s.rsed (j + 1) * ainv s (j + 1) else 0) := by
    rw [Finset.sum_congr rfl hSnew, Finset.sum_add_distrib, ← Finset.mul_sum]
  have f4 : dqalNew s *
      (s.vol + ∑ j in Finset.range 6,
        if s.rsed (j + 1) > 0 then s.rsed (j + 1) * ainv s (j + 1) else 0)
      = s.vol * s.dqal +
        ∑ j in Finset.range 6,
          (if s.rsed (j + 1) > 0 then (s.sqal (j + 1) - cainv s (j + 1)) * s.rsed (j + 1) else 0) := by
    have : dqalNew s * adsdesDenom s = adsdesNum s := by
      unfold dqalNew
      exact div_mul_cancel₀ _ hden
    rw [adsdesDenom, adsdesNum] at this
    exact this
  have f3 :
      (∑ j in Finset.range 6,
        (if s.rsed (j + 1) > 0 then (s.sqal (j + 1) - cainv s (j + 1)) * s.rsed (j + 1) else 0))
      + (∑ j in Finset.range 6,
          if s.rsed (j + 1) > 0 then s.rsed (j + 1) * cainv s (j + 1) else 0)
      = ∑ j in Finset.range 6,
          if s.rsed (j + 1) > 0 then s.rsed (j + 1) * s.sqal (j + 1) else 0 := by
    rw [← Finset.sum_add_distrib]
    refine Finset.sum_congr rfl fun j hj => ?_
    split_ifs with hp
    · ring
    · ring
  have hcons : s.vol * (adsdes s).dqal +
      (∑ j in Finset.range 6,
        if s.rsed (j + 1) > 0 then s.rsed (j + 1) * (adsdes s).sqal (j + 1) else 0)
      = s.vol * s.dqal +
        (∑ j in Finset.range 6,
          if s.rsed (j + 1) > 0 then s.rsed (j + 1) * s.sqal (j + 1) else 0) := by
    rw [hds, hsum_new]
    linear_combination f4 + f3
  -- total flux as a guarded sum, split into the three component sums
  have hadq7 : (adsdes s).adqal 7 =
      ∑ i in Finset.range 6,
        (if s.rsed (i + 1) > 0 then
          (cainv s (i + 1) + dqalNew s * ainv s (i + 1) - s.sqal (i + 1)) * s.rsed (i + 1)
        else 0) := by
    rw [adsdes_adqal_pos s hvol]
    norm_num
  have hsplit : ∀ i ∈ Finset.range 6,
      (if s.rsed (i + 1) > 0 then
        (cainv s (i + 1) + dqalNew s * ainv s (i + 1) - s.sqal (i + 1)) * s.rsed (i + 1)
      else 0)
      = (if s.rsed (i + 1) > 0 then s.rsed (i + 1) * cainv s (i + 1) else 0)
        + dqalNew s * (if s.rsed (i + 1) > 0 then s.rsed (i + 1) * ainv s (i + 1) else 0)
        - (if s.rsed (i + 1) > 0 then s.rsed (i + 1) * s.sqal (i + 1) else 0) := by
    intro i hi
    split_ifs with hp
    · ring
    · ring
  have hadq7' : (adsdes s).adqal 7 =
      (∑ j in Finset.range 6,
        if s.rsed (j + 1) > 0 then s.rsed (j + 1) * cainv s (j + 1) else 0)
      + dqalNew s *
        (∑ j in Finset.range 6,
          if s.rsed (j + 1) > 0 then s.rsed (j + 1) * ainv s (j + 1) else 0)
      - ∑ j in Finset.range 6,
          if s.rsed (j + 1) > 0 then s.rsed (j + 1) * s.sqal (j + 1) else 0 := by
    rw [hadq7, Finset.sum_congr rfl hsplit, Finset.sum_sub_distrib,
      Finset.sum_add_distrib, ← Finset.mul_sum]
  refine ⟨hcons, ?_, ?_⟩
  · rw [hadq7]
    refine Finset.sum_congr rfl fun j hj => ?_
    have hj6 : j < 6 := Finset.mem_range.mp hj
    have hj' : (adsdes s).adqal (j + 1) =
        (if s.rsed (j + 1) > 0 then
          (cainv s (j + 1) + dqalNew s * ainv s (j + 1) - s.sqal (j + 1)) * s.rsed (j + 1)
        else 0) := by
      rw [adsdes_adqal_pos s hvol]
      exact if_pos ⟨by omega, by omega⟩
    exact hj'.symm
  · rw [hadq7', hds]
    linear_combination f4 + f3

/-- Inputs used to instantiate the `adsdes` theorems: unit volume and no
sediment present in any class. -/
def sW : AdsdesArgs :=
  { vol := 1, rsed := fun _ => 0, adpm1 := fun _ => 0, adpm2 := fun _ => 0
    adpm3 := fun _ => 1, tw20 := 0, dqal := 1, sqal := fun _ => 0 }

/-- Witness for the amended C4 at the concrete input `sW`. -/
theorem adsdes_mass_conservation_witness :
    (adsdes sW).adqal 7 = sW.vol * (sW.dqal - (adsdes sW).dqal) :=
  (adsdes_mass_conservation sW (by norm_num [sW])
    (by norm_num [adsdesDenom, ainv, akj, sW, Finset.sum_range_succ])).2.2

/-- Claim C8: with no water (`vol ≤ 0`) `adsdes` returns every flux
`adqal[j]` as zero and the dissolved and all sorbed concentrations
unchanged; with water present, every absent sediment class
(`rsed[j] ≤ 0`, `j = 1..6`) gets a zero flux and keeps its sorbed
concentration unchanged. -/
theorem adsdes_frame (s : AdsdesArgs) :
    (s.vol ≤ 0 →
      (adsdes s).dqal = s.dqal ∧ (adsdes s).sqal = s.sqal ∧
        ∀ j, (adsdes s).adqal j = 0)
    ∧ (0 < s.vol → ∀ j, 1 ≤ j → j ≤ 6 → s.rsed j ≤ 0 →
        (adsdes s).adqal j = 0 ∧ (adsdes s).sqal j = s.sqal j) := by
  constructor
  · intro hv
    have hnv : ¬ s.vol > 0 := not_lt.mpr hv
    refine ⟨?_, ?_, fun j => ?_⟩ <;> simp [adsdes, hnv]
  · intro hv j h1 h6 hr
    have hnr : ¬ s.rsed j > 0 := not_lt.mpr hr
    constructor
    · rw [adsdes_adqal_pos s hv, if_pos ⟨h1, h6⟩, if_neg hnr]
    · rw [adsdes_sqal_pos s hv, if_neg]
      rintro ⟨-, -, hp⟩
      exact hnr hp

/-- Witness for C8: both branches applied at concrete inputs — `sW` with the
volume negated for the no-water case, and `sW` itself (volume 1, class 3
absent) for the absent-class case. -/
theorem adsdes_frame_witness :
    (adsdes { sW with vol := -1 }).adqal 7 = 0 ∧
      (adsdes sW).adqal 3 = 0 ∧ (adsdes sW).sqal 3 = sW.sqal 3 :=
  ⟨((adsdes_frame { sW with vol := -1 }).1 (by norm_num [sW])).2.2 7,
    ((adsdes_frame sW).2 (by norm_num [sW]) 3 (by norm_num) (by norm_num)
      (by norm_num [sW])).1,
    ((adsdes_frame sW).2 (by norm_num [sW]) 3 (by norm_num) (by norm_num)
      (by norm_num [sW])).2⟩

/-! ## Claims C5, C6 and C9: the transport operator `advqal` -/

/-- Claim C5: with all mass-balance denominators and masses zero
(`rsed = depscr = rosed = isqal = rsqals = 0`, bed inputs
`bsed = rbqals = 0`), `advqal` returns the suspended concentration as the
`-1.0e30` undefined sentinel and leaves every error counter unchanged;
changing only `isqal` to any nonzero value increments counter slot 4 by
exactly one and no other slot. -/
theorem advqal_zero_denominator (osed : ℕ → ℚ) (nexits : ℕ) (errors : ℕ → ℤ)
    (z : ℚ) (hz : z ≠ 0) :
    ((advqal 0 0 0 0 0 osed nexits 0 0 errors).sqal = -1e30
      ∧ ∀ i, (advqal 0 0 0 0 0 osed nexits 0 0 errors).errors i = errors i)
    ∧ ((advqal z 0 0 0 0 osed nexits 0 0 errors).errors 4 = errors 4 + 1
      ∧ ∀ i, i ≠ 4 → (advqal z 0 0 0 0 osed nexits 0 0 errors).errors i = errors i) := by
  have habs : ¬ ((0 : ℚ) < |(0 : ℚ)| ∨ (0 : ℚ) < |(0 : ℚ)|) := by norm_num
  refine ⟨⟨?_, fun i => ?_⟩, ?_, fun i hi => ?_⟩
  · norm_num [advqal]
  · norm_num [advqal]
    split_ifs with h1 h2
    · rw [h1]
    · rw [h2]
    · rfl
  · have hz' : (0 : ℚ) < |z| := abs_pos.mpr hz
    norm_num [advqal, hz']
  · have hz' : (0 : ℚ) < |z| := abs_pos.mpr hz
    norm_num [advqal, hz', hi]
    intro h5
    rw [h5]

/-- Witness for C5 at the concrete inputs `osed = 0`, one exit, zeroed
counters and `isqal = 1`. -/
theorem advqal_zero_denominator_witness :
    (advqal 0 0 0 0 0 (fun _ => 0) 1 0 0 (fun _ => 0)).sqal = -1e30
    ∧ (advqal 1 0 0 0 0 (fun _ => 0) 1 0 0 (fun _ => 0)).errors 4 = 0 + 1 :=
  ⟨(advqal_zero_denominator (fun _ => 0) 1 (fun _ => 0) 1 (by norm_num)).1.1,
    (advqal_zero_denominator (fun _ => 0) 1 (fun _ => 0) 1 (by norm_num)).2.1⟩

/-- Claim C6: scour with the bed scoured clean — `depscr = -5`, `bsed = 0`,
prior bed sorbed mass `rbqals = 10` — returns `dsqal = -10` (full release of
the bed store) and increments no error counter, for any values of the other
inputs. -/
theorem advqal_scour_clean (isqal rsed rosed rsqals : ℚ) (osed : ℕ → ℚ)
    (nexits : ℕ) (errors : ℕ → ℤ) :
    (advqal isqal rsed 0 (-5) rosed osed nexits rsqals 10 errors).dsqal = -10
    ∧ ∀ i, (advqal isqal rsed 0 (-5) rosed osed nexits rsqals 10 errors).errors i
        = errors i := by
  constructor
  · norm_num [advqal]
  · intro i
    norm_num [advqal]

/-- Claim C9: in the deposition/no-scour branch with no bed sediment at the
end of the interval (`bsed ≤ 0`), counter slot 5 is incremented exactly when
the computed `dsqal` is nonzero or `rbqals` is strictly positive — the
source's `abs(rbqals > 0.0)` takes the absolute value of a boolean, so a
negative `rbqals` with `dsqal = 0` does not increment the counter. -/
theorem advqal_bed_error_iff (isqal rsed bsed depscr rosed rsqals rbqals : ℚ)
    (osed : ℕ → ℚ) (nexits : ℕ) (errors : ℕ → ℤ)
    (hdep : ¬ depscr < 0) (hbsed : bsed ≤ 0) :
    ((advqal isqal rsed bsed depscr rosed osed nexits rsqals rbqals errors).errors 5
      = errors 5 +
        (if (advqal isqal rsed bsed depscr rosed osed nexits rsqals rbqals errors).dsqal ≠ 0
            ∨ 0 < rbqals then 1 else 0))
    ∧ (rbqals < 0 →
        (advqal isqal rsed bsed depscr rosed osed nexits rsqals rbqals errors).dsqal = 0 →
        (advqal isqal rsed bsed depscr rosed osed nexits rsqals rbqals errors).errors 5
          = errors 5) := by
  have h1 : (advqal isqal rsed bsed depscr rosed osed nexits rsqals rbqals errors).errors 5
      = errors 5 +
        (if (advqal isqal rsed bsed depscr rosed osed nexits rsqals rbqals errors).dsqal ≠ 0
            ∨ 0 < rbqals then 1 else 0) := by
    norm_num [advqal, hdep, hbsed, abs_pos]
  refine ⟨h1, fun hneg hds => ?_⟩
  rw [h1, hds]
  have : ¬ ((0 : ℚ) ≠ 0 ∨ 0 < rbqals) := by
    push_neg
    exact ⟨rfl, le_of_lt hneg⟩
  rw [if_neg this, add_zero]

/-- Witness for C9 at concrete inputs: `depscr = 0`, `bsed = 0`,
`rbqals = -1` (negative prior bed mass), everything else zero — the bed
counter is not incremented. -/
theorem advqal_bed_error_iff_witness :
    (advqal 0 0 0 0 0 (fun _ => 0) 1 0 (-1) (fun _ => 0)).errors 5 = 0 := by
  have h := advqal_bed_error_iff 0 0 0 0 0 0 (-1) (fun _ => 0) 1 (fun _ => 0)
    (by norm_num) le_rfl
  have hds : (advqal 0 0 0 0 0 (fun _ => 0) 1 0 (-1) (fun _ => 0)).dsqal = 0 := by
    norm_num [advqal]
  exact h.2 (by norm_num) hds

/-! ## Claim C1: daughter propagation -/

/-- Daughter flags of the C1 test configuration: constituent 2 is a daughter
through the generic-decay process only (`gqpm2[6] = 1`). -/
def gqC1 : ℕ → ℕ := fun k => if k = 6 then 1 else 0

/-- Parent decay masses of the C1 test configuration: constituent 1 decayed
`ddqal[6][1] = 2` units of mass by the generic-decay process. -/
def ddC1 : ℕ → ℕ → ℝ := fun k j => if k = 6 ∧ j = 1 then 2 else 0

/-- Coupling of the C1 test configuration: full conversion (value 1) of
everything decayed from parent constituent 1. -/
def cC1 : ℕ → ℕ → ℝ := fun j _ => if j = 1 then 1 else 0

/-- Claim C1: the daughter loop of `_gqual_` iterates
`for j in range(1, itobe)` with `itobe = index - 1`, i.e. over
`1 ≤ j < index - 1`, so for constituent 2 the parent range is empty and the
code's `pdqal` is 0 for every configuration — whereas the spec's contract
(§4.6, all parents `j < i`), applied to the C1 test configuration
(`C[1][2] = 1`, `ddqal[6][1] = 2`), yields 2. -/
theorem pdqal_skips_immediate_parent :
    (∀ (gqpm2 : ℕ → ℕ) (dd : ℕ → ℕ → ℝ) (c : ℕ → ℕ → ℝ), pdqal_calc gqpm2 dd c 2 = 0)
    ∧ pdqal_spec gqC1 ddC1 cC1 2 = 2 := by
  constructor
  · intro gqpm2 dd c
    simp [pdqal_calc]
  · have hIco : Finset.Ico 1 2 = {1} := rfl
    norm_num [pdqal_spec, gqC1, ddC1, cC1, hIco, Finset.sum_range_succ]

/-! ## Claim C2: depth gating of the decay section -/

/-- Claim C2 (amended: the bed-sediment decay is not depth-gated): for every
step with average depth at most 0.17, the dissolved-decay outputs
`ddqal[1..7]`, the suspended-class sediment-decay outputs `sqdec[1..3]` and
the sorption-exchange fluxes `adqal[1..7]` of the step's decay section are
all zero, regardless of flags and rate constants; the bed-class outputs
`sqdec[4..6]` (and hence the total `sqdec[7]`) are computed unconditionally
and can be nonzero. -/
theorem stepDecay_depth_gate (p : StepArgs) (hdep : p.avdepe ≤ 0.17) :
    (∀ i, (stepDecaySection p).ddqal i = 0)
    ∧ (stepDecaySection p).sqdec 1 = 0 ∧ (stepDecaySection p).sqdec 2 = 0
    ∧ (stepDecaySection p).sqdec 3 = 0
    ∧ (∀ i, (stepDecaySection p).adqal i = 0) := by
  have hn : ¬ p.avdepe > 0.17 := not_lt.mpr hdep
  by_cases h7 : p.qalfg7 = 1
  · refine ⟨fun i => ?_, ?_, ?_, ?_, fun i => ?_⟩ <;>
      simp [stepDecaySection, hn, h7]
  · refine ⟨fun i => ?_, ?_, ?_, ?_, fun i => ?_⟩ <;>
      simp [stepDecaySection, hn, h7]

/-- Inputs for the C2 theorems: average depth 0.10 (below the gate), a
sediment-associated constituent (`qalfg7 = 1`), bed decay rate
`addcpm3 = 1` with base `addcpm4 = 1` at `tw20 = 0`, unit sediment masses
and sorbed concentrations. -/
def pGate : StepArgs :=
  { avdepe := 0.10, da := aW, gqpm2 := fun _ => 0, ddqalPrev := fun _ _ => 0
    c := fun _ _ => 0, index := 1, qalfg7 := 1, addcpm1 := 0, addcpm2 := 0
    addcpm3 := 1, addcpm4 := 1, tw20 := 0, rsed := fun _ => 1
    adpm1 := fun _ => 0, adpm2 := fun _ => 0, adpm3 := fun _ => 1
    sqal := fun _ => 1 }

/-- Counterexample to C2 as stated: at `pGate` the depth 0.10 is below the
0.17 gate, yet the bed-class decay output `sqdec[4]` is
`1 - exp(-1) ≠ 0` — the bed-sediment decay of lines 1229-1240 is outside
the depth gate. -/
theorem stepDecay_bed_decay_not_gated :
    pGate.avdepe ≤ 0.17 ∧ (stepDecaySection pGate).sqdec 4 ≠ 0 := by
  constructor
  · norm_num [pGate]
  · have hn : ¬ pGate.avdepe > 0.17 := by norm_num [pGate]
    have hred : (stepDecaySection pGate).sqdec 4 = 1 - Real.exp (-1) := by
      simp only [stepDecaySection, hn, if_neg hn, if_false, pGate]
      norm_num [adecay, Real.one_rpow]
    rw [hred]
    have hlt : Real.exp (-1) < 1 := by
      rw [Real.exp_lt_one_iff]; norm_num
    intro hcontra
    linarith

/-- Witness for the amended C2 at the concrete input `pGate`. -/
theorem stepDecay_depth_gate_witness :
    (stepDecaySection pGate).adqal 7 = 0 ∧ (stepDecaySection pGate).sqdec 1 = 0 :=
  ⟨(stepDecay_depth_gate pGate (by norm_num [pGate])).2.2.2.2 7,
    (stepDecay_depth_gate pGate (by norm_num [pGate])).2.1⟩

/-! ## Claim C7: light-table range handling -/

theorem lightValsDefault_getD (n : ℕ) : lightValsDefault.getD n 0 = 0 := by
  rcases lt_or_ge n 18 with h | h
  · interval_cases n <;> rfl
  · exact List.getD_eq_default _ _ (by simpa [lightValsDefault] using h)

/-- Counterexample to C7 as stated: at latitude 60 the derived band index is
6, outside the valid range 1..5, and the lookup is not clamped to the
nearest valid band 5 — it returns the zero default table instead
(`light_factor 1 1 6 = 0` while band 5 gives `0.0000371 ≠ 0`). -/
theorem light_high_band_not_clamped :
    lightIndex 60 = 6 ∧ light_factor 1 1 6 = 0 ∧ light_factor 1 1 5 ≠ 0 := by
  refine ⟨by norm_num [lightIndex], ?_, ?_⟩
  · norm_num [light_factor, lightValsDefault]
  · norm_num [light_factor, lightVals5_1]

/-- Claim C7 (amended: clamping happens only at the low end): the derived
light-band index is never 0 — below the valid range (`|lat| ≤ 4`) it is
raised to band 1 — but above the valid range (index ≥ 6, `|lat| ≥ 55`)
there is no clamp: `light_factor` falls through every band branch and
returns 0 for every wavelength and season; no error counter exists on this
path in either case. -/
theorem light_clamp_amended :
    (∀ lat : ℤ, lat.natAbs ≤ 4 → lightIndex lat = 1)
    ∧ (∀ lat : ℤ, 1 ≤ lightIndex lat)
    ∧ (∀ l lset li, 6 ≤ li → light_factor l lset li = 0) := by
  refine ⟨fun lat h => ?_, fun lat => ?_, fun l lset li hli => ?_⟩
  · unfold lightIndex
    have h0 : (lat.natAbs + 5) / 10 = 0 := by omega
    simp [h0]
  · unfold lightIndex
    split_ifs with h
    · exact le_refl 1
    · omega
  · unfold light_factor
    have h1 : li ≠ 1 := by omega
    have h2 : li ≠ 2 := by omega
    have h3 : li ≠ 3 := by omega
    have h4 : li ≠ 4 := by omega
    have h5 : li ≠ 5 := by omega
    rw [if_neg h1, if_neg h2, if_neg h3, if_neg h4, if_neg h5]
    exact lightValsDefault_getD _

/-- Witness for the amended C7: the equator-adjacent latitude 0 is clamped
up to band 1, and band 7 (latitude beyond 65) yields a zero factor. -/
theorem light_clamp_amended_witness :
    lightIndex 0 = 1 ∧ light_factor 3 2 7 = 0 :=
  ⟨light_clamp_amended.1 0 (by norm_num), light_clamp_amended.2.2 3 2 7 (by norm_num)⟩

end GQ

